import Mathlib

/-!
Verification of the configuration/policy model of the tempo-operator slice
`apis/config/v1alpha1/projectconfig_types.go`.

The Go source in scope is a schema file: struct declarations with JSON tags
and documentation comments. The behavioural components described by the
specification (Duration Pair Validator, Certificate Lifecycle Policy,
Component Encryption Resolver, Feature Gate Aggregate) have no implementation
under the source slice; they are modelled here from the specification text,
each such definition carrying a doc comment starting with
"Modelled from the spec:". The data types themselves are embedded from the
Go source, keeping the source field names.

Durations (`metav1.Duration`, wrapping Go `time.Duration`) are modelled as
`Int` nanosecond counts.
-/

/-! ### Data types embedded from the Go source -/

/-- Embedded from `BuiltInCertManagement` in `projectconfig_types.go`:
configuration for the built-in facility to generate and rotate TLS
certificates. Durations are `Int` nanoseconds. -/
structure BuiltInCertManagement where
  CACertValidity : Int
  CACertRefresh : Int
  CertValidity : Int
  CertRefresh : Int
  Enabled : Bool
deriving DecidableEq

/-- Embedded from `OpenShiftFeatureGates` in `projectconfig_types.go`. -/
structure OpenShiftFeatureGates where
  ServingCertsService : Bool
  OpenShiftRoute : Bool
  BaseDomain : String
  ClusterTLSPolicy : Bool
deriving DecidableEq

/-- Embedded from `TLSProfileType` in `projectconfig_types.go`:
`type TLSProfileType string`, a TLS security profile name. -/
abbrev TLSProfileType := String

/-- Embedded from the constant `TLSProfileOldType` in the source. -/
def TLSProfileOldType : TLSProfileType := "Old"

/-- Embedded from the constant `TLSProfileIntermediateType` in the source. -/
def TLSProfileIntermediateType : TLSProfileType := "Intermediate"

/-- Embedded from the constant `TLSProfileModernType` in the source. -/
def TLSProfileModernType : TLSProfileType := "Modern"

/-- The three `TLSProfileType` constants declared in the source, in
declaration order. -/
def knownTLSProfiles : List TLSProfileType :=
  [TLSProfileOldType, TLSProfileIntermediateType, TLSProfileModernType]

/-- Embedded from `MetricsFeatureGates` in `projectconfig_types.go`. -/
structure MetricsFeatureGates where
  CreateServiceMonitors : Bool
  CreatePrometheusRules : Bool
deriving DecidableEq

/-- Embedded from `ObservabilityFeatureGates` in `projectconfig_types.go`. -/
structure ObservabilityFeatureGates where
  Metrics : MetricsFeatureGates
deriving DecidableEq

/-- Embedded from `FeatureGates` in `projectconfig_types.go`. Note that the
`TLSProfile` field is declared in the source as a plain `string`, not as the
named `TLSProfileType` enum, and carries no validation marker. -/
structure FeatureGates where
  OpenShift : OpenShiftFeatureGates
  BuiltInCertManagement : BuiltInCertManagement
  HTTPEncryption : Bool
  GRPCEncryption : Bool
  TLSProfile : String
  PrometheusOperator : Bool
  Observability : ObservabilityFeatureGates
deriving DecidableEq

/-! ### Error kinds (spec section 7) -/

/-- Modelled from the spec: the error kinds of section 7
(`InvalidDurationPair`, `TopologyConflict`, `ConfigurationConflict`);
no error type exists in the source slice. -/
inductive PolicyError where
  | invalidDurationPair
  | topologyConflict
  | configurationConflict
deriving DecidableEq

/-! ### Duration Pair Validator (spec section 4.1) -/

/-- Modelled from the spec: a `DurationPair`
`{ totalValidity: duration, refreshBefore: duration }` (section 3); the
source only declares the four raw duration fields of
`BuiltInCertManagement`. Durations are `Int` nanoseconds. -/
structure DurationPair where
  totalValidity : Int
  refreshBefore : Int
deriving DecidableEq

/-- Modelled from the spec: the Duration Pair Validator of section 4.1,
absent from the source slice. Fails with `InvalidDurationPair` when
`totalValidity <= 0`, `refreshBefore <= 0` or `refreshBefore > totalValidity`;
otherwise succeeds, returning `true` exactly when the warning-level
observation fires (`refreshBefore > 0.8 * totalValidity` and
`refreshBefore != totalValidity`). Over integer nanoseconds the exact
threshold `refreshBefore > 0.8 * totalValidity` is expressed as
`5 * refreshBefore > 4 * totalValidity`. -/
def validateDurationPair (p : DurationPair) : Except PolicyError Bool :=
  if p.totalValidity ≤ 0 then .error .invalidDurationPair
  else if p.refreshBefore ≤ 0 then .error .invalidDurationPair
  else if p.totalValidity < p.refreshBefore then .error .invalidDurationPair
  else .ok (decide (4 * p.totalValidity < 5 * p.refreshBefore ∧
      p.refreshBefore ≠ p.totalValidity))

/-! ### Certificate Lifecycle Policy (spec section 4.2) -/

/-- Modelled from the spec: `CertificateLifecyclePolicy`
`{ caPair, leafPair, enabled }` of section 3; the source only declares the
flat `BuiltInCertManagement` struct. -/
structure CertificateLifecyclePolicy where
  caPair : DurationPair
  leafPair : DurationPair
  enabled : Bool
deriving DecidableEq

/-- Modelled from the spec: `build(caPair, leafPair, enabled)` of section
4.2, absent from the source slice. Runs the Duration Pair Validator on both
pairs unconditionally (even when `enabled = false`) and short-circuits on the
first failure. -/
def buildCertificateLifecyclePolicy (ca leaf : DurationPair) (enabled : Bool) :
    Except PolicyError CertificateLifecyclePolicy :=
  match validateDurationPair ca with
  | .error e => .error e
  | .ok _ =>
    match validateDurationPair leaf with
    | .error e => .error e
    | .ok _ => .ok ⟨ca, leaf, enabled⟩

/-- Modelled from the spec: the derived read accessor
`nextCARotation(now) = now + caPair.totalValidity - caPair.refreshBefore`
of section 4.2. -/
def CertificateLifecyclePolicy.nextCARotation
    (pol : CertificateLifecyclePolicy) (now : Int) : Int :=
  now + pol.caPair.totalValidity - pol.caPair.refreshBefore

/-- Modelled from the spec: the derived read accessor `nextLeafRotation`,
analogous to `nextCARotation` (section 4.2). -/
def CertificateLifecyclePolicy.nextLeafRotation
    (pol : CertificateLifecyclePolicy) (now : Int) : Int :=
  now + pol.leafPair.totalValidity - pol.leafPair.refreshBefore

/-! ### Claims C1, C8, C5, C6 -/

/-- C1: for every `DurationPair`, validation fails with
`InvalidDurationPair` exactly when `totalValidity <= 0`, or
`refreshBefore <= 0`, or `refreshBefore > totalValidity`; in particular a
pair with `0 < refreshBefore` and `refreshBefore = totalValidity`
validates successfully. -/
theorem C1_validate_fails_iff (p : DurationPair) :
    (validateDurationPair p = .error .invalidDurationPair ↔
      (p.totalValidity ≤ 0 ∨ p.refreshBefore ≤ 0 ∨
        p.totalValidity < p.refreshBefore)) ∧
    (0 < p.refreshBefore → p.refreshBefore = p.totalValidity →
      (validateDurationPair p).isOk = true) := by
  constructor
  · unfold validateDurationPair
    split_ifs with h1 h2 h3 <;> simp <;> omega
  · intro hpos heq
    unfold validateDurationPair
    split_ifs with h1 h2 h3 <;> first | omega | rfl

/-- C1 witness: the boundary pair `{totalValidity = 7, refreshBefore = 7}`
has a positive refresh equal to its validity and validates successfully. -/
theorem C1_validate_fails_iff_witness :
    (validateDurationPair ⟨7, 7⟩).isOk = true :=
  (C1_validate_fails_iff ⟨7, 7⟩).2 (by decide) (by decide)

/-- C8: a `DurationPair` with `0 < refreshBefore`,
`0.8 * totalValidity < refreshBefore` (exactly:
`4 * totalValidity < 5 * refreshBefore`), `refreshBefore ≠ totalValidity`
and `refreshBefore ≤ totalValidity` validates successfully and the result
carries the warning-level observation (not an error). -/
theorem C8_validate_warning_band (p : DurationPair)
    (h0 : 0 < p.refreshBefore)
    (hband : 4 * p.totalValidity < 5 * p.refreshBefore)
    (hne : p.refreshBefore ≠ p.totalValidity)
    (hle : p.refreshBefore ≤ p.totalValidity) :
    validateDurationPair p = .ok true := by
  unfold validateDurationPair
  split
  · omega
  · split
    · omega
    · split
      · omega
      · congr 1
        simp only [decide_eq_true_eq]
        exact ⟨hband, hne⟩

/-- C8 witness: the spec scenario pair `{validity: 18mo, refresh: 15mo}`
(refresh at about 83% of validity) validates with a warning. -/
theorem C8_validate_warning_band_witness :
    validateDurationPair ⟨18, 15⟩ = .ok true :=
  C8_validate_warning_band ⟨18, 15⟩ (by decide) (by decide) (by decide)
    (by decide)

/-- C5: `build` runs the Duration Pair Validator on both pairs for either
value of `enabled`: it succeeds exactly when both pairs validate, and it
fails with a given error for `enabled = false` exactly when it does so for
`enabled = true` — an invalid pair is rejected even when disabled. -/
theorem C5_build_validates_eagerly (ca leaf : DurationPair) :
    (∀ b : Bool, (buildCertificateLifecyclePolicy ca leaf b).isOk =
      ((validateDurationPair ca).isOk && (validateDurationPair leaf).isOk)) ∧
    (∀ e : PolicyError,
      buildCertificateLifecyclePolicy ca leaf false = .error e ↔
        buildCertificateLifecyclePolicy ca leaf true = .error e) := by
  unfold buildCertificateLifecyclePolicy
  constructor
  · intro b
    cases hca : validateDurationPair ca with
    | error e => rfl
    | ok w =>
      cases hleaf : validateDurationPair leaf with
      | error e => rfl
      | ok w2 => rfl
  · intro e
    cases hca : validateDurationPair ca with
    | error e2 => simp
    | ok w =>
      cases hleaf : validateDurationPair leaf with
      | error e2 => simp
      | ok w2 => simp

/-- C6: for every successfully built policy, `nextCARotation now` equals
`now + caPair.totalValidity - caPair.refreshBefore`, and `nextLeafRotation`
analogously for the leaf pair. -/
theorem C6_rotation_accessors (ca leaf : DurationPair) (enabled : Bool)
    (pol : CertificateLifecyclePolicy)
    (h : buildCertificateLifecyclePolicy ca leaf enabled = .ok pol)
    (now : Int) :
    pol.nextCARotation now = now + ca.totalValidity - ca.refreshBefore ∧
    pol.nextLeafRotation now = now + leaf.totalValidity - leaf.refreshBefore := by
  unfold buildCertificateLifecyclePolicy at h
  cases hca : validateDurationPair ca with
  | error e => rw [hca] at h; exact absurd h (by simp)
  | ok w =>
    cases hleaf : validateDurationPair leaf with
    | error e => rw [hca, hleaf] at h; exact absurd h (by simp)
    | ok w2 =>
      rw [hca, hleaf] at h
      have hpol : pol = ⟨ca, leaf, enabled⟩ := by
        cases h; rfl
      subst hpol
      exact ⟨rfl, rfl⟩

/-- C6 witness: a concretely built policy with CA pair `(10, 2)` and leaf
pair `(6, 1)` reports rotations at `100 + 10 - 2` and `100 + 6 - 1`. -/
theorem C6_rotation_accessors_witness :
    (CertificateLifecyclePolicy.mk ⟨10, 2⟩ ⟨6, 1⟩ true).nextCARotation 100 =
        108 ∧
    (CertificateLifecyclePolicy.mk ⟨10, 2⟩ ⟨6, 1⟩ true).nextLeafRotation 100 =
        105 :=
  C6_rotation_accessors ⟨10, 2⟩ ⟨6, 1⟩ true _ rfl 100

/-! ### Component topology and encryption resolver (spec sections 3, 4.3) -/

/-- Modelled from the spec: the named components of the fixed
`ComponentTopology` (section 3): distributor, ingester, querier,
query-frontend, gateway and the UI. -/
inductive Component where
  | distributor
  | ingester
  | querier
  | queryFrontend
  | gateway
  | ui
deriving DecidableEq

/-- All components, in the order the spec lists them. -/
def allComponents : List Component :=
  [.distributor, .ingester, .querier, .queryFrontend, .gateway, .ui]

/-- Modelled from the spec: the two protocol classes over which encryption
is negotiated independently (HTTP links and GRPC links, section 4.3 step 1). -/
inductive Protocol where
  | http
  | grpc
deriving DecidableEq

/-- Modelled from the spec: a link endpoint, either a named component or the
world outside the system (the source of the external-facing ingress links of
section 4.3 step 2). -/
inductive Endpoint where
  | comp (c : Component)
  | outside
deriving DecidableEq

/-- A directed link of the topology, tagged with its protocol class. -/
structure Link where
  src : Endpoint
  dst : Endpoint
  protocol : Protocol
deriving DecidableEq

/-- Whether a link has the given component as one of its endpoints. -/
def Link.touches (l : Link) (c : Component) : Bool :=
  l.src = Endpoint.comp c || l.dst = Endpoint.comp c

/-- Modelled from the spec: the fixed `ComponentTopology` constant
(section 3, "not user input"). The internal links follow the spec's examples
(distributor to ingester, querier to query-frontend) and the source doc
comments ("communication between the distributors and ingestors and also
between ingestor and queriers, and between the queriers and the
query-frontend component", gateway in front of the Tempo components, the
plain HTTP API link of the UI); each potentially public-facing component
(gateway, UI, bare HTTP API at the query-frontend) has an external-facing
HTTP ingress link from `outside`. -/
def fullTopology : List Link :=
  [⟨.outside, .comp .gateway, .http⟩,
   ⟨.outside, .comp .ui, .http⟩,
   ⟨.outside, .comp .queryFrontend, .http⟩,
   ⟨.comp .gateway, .comp .queryFrontend, .http⟩,
   ⟨.comp .gateway, .comp .distributor, .grpc⟩,
   ⟨.comp .distributor, .comp .ingester, .grpc⟩,
   ⟨.comp .querier, .comp .ingester, .grpc⟩,
   ⟨.comp .querier, .comp .queryFrontend, .grpc⟩,
   ⟨.comp .querier, .comp .queryFrontend, .http⟩,
   ⟨.comp .ui, .comp .queryFrontend, .http⟩]

/-- Modelled from the spec: `EncryptionFlags` of section 3. The
`tlsProfile` field mirrors the source field `FeatureGates.TLSProfile`,
declared there as a plain `string`. -/
structure EncryptionFlags where
  httpEncryption : Bool
  grpcEncryption : Bool
  gatewayEnabled : Bool
  uiEnabled : Bool
  tlsProfile : String
deriving DecidableEq

/-- Modelled from the spec: `LinkEncryptionDecision` of section 3 — per
link, whether it must be encrypted and whether it is the public-facing
boundary. -/
structure LinkDecision where
  link : Link
  encrypted : Bool
  publicFacing : Bool
deriving DecidableEq

/-- Whether a component is present: gateway and UI are optional, governed by
their flags; the core Tempo components are always present. -/
def componentActive (f : EncryptionFlags) : Component → Bool
  | .gateway => f.gatewayEnabled
  | .ui => f.uiEnabled
  | _ => true

/-- Whether an endpoint is present under the given flags. -/
def Endpoint.active (f : EncryptionFlags) : Endpoint → Bool
  | .comp c => componentActive f c
  | .outside => true

/-- The links of the fixed topology whose endpoints are all present under
the given flags. -/
def activeLinks (f : EncryptionFlags) : List Link :=
  fullTopology.filter (fun l => l.src.active f && l.dst.active f)

/-- Modelled from the spec: step 1 of section 4.3 — every link starts out
`encrypted = httpEncryption` for HTTP links and `encrypted = grpcEncryption`
for GRPC links. -/
def baseEncryption (f : EncryptionFlags) (l : Link) : Bool :=
  match l.protocol with
  | .http => f.httpEncryption
  | .grpc => f.grpcEncryption

/-- Modelled from the spec: step 2 of section 4.3 — the single public-facing
component, by priority: the gateway when `gatewayEnabled`, else the UI when
`uiEnabled`, else the bare HTTP API component (the query-frontend). -/
def publicComponent (f : EncryptionFlags) : Component :=
  if f.gatewayEnabled then .gateway
  else if f.uiEnabled then .ui
  else .queryFrontend

/-- The external-facing HTTP ingress link of the resolved public-facing
component. -/
def publicIngress (f : EncryptionFlags) : Link :=
  ⟨.outside, .comp (publicComponent f), .http⟩

/-- Modelled from the spec: steps 1 to 3 of the Component Encryption
Resolver (section 4.3), absent from the source slice. Every active link is
marked with its protocol-class encryption from step 1; the single
external-facing ingress link of the public-facing component is marked
`publicFacing = true` and forced `encrypted = false` (a public endpoint is
never wrapped in the internal mTLS mesh); the external-facing links of the
other components are downgraded to internal (`publicFacing = false`,
encryption still governed by step 1). -/
def resolveLinks (f : EncryptionFlags) : List LinkDecision :=
  (activeLinks f).map (fun l =>
    if l = publicIngress f then ⟨l, false, true⟩
    else ⟨l, baseEncryption f l, false⟩)

/-- The number of public-facing decided links touching a given component. -/
def publicFacingCount (ds : List LinkDecision) (c : Component) : Nat :=
  (ds.filter (fun d => d.publicFacing && d.link.touches c)).length

/-- Modelled from the spec: the Component Encryption Resolver with step 4 of
section 4.3 — reject (with `TopologyConflict`) any resolution in which two
public-facing links touch some component; otherwise return the decisions. -/
def resolveEncryption (f : EncryptionFlags) :
    Except PolicyError (List LinkDecision) :=
  let ds := resolveLinks f
  if allComponents.all (fun c => publicFacingCount ds c ≤ 1) then .ok ds
  else .error .topologyConflict

/-- The step-4 conflict check always passes: resolution always succeeds and
returns the decisions of `resolveLinks`. -/
theorem resolveEncryption_eq (f : EncryptionFlags) :
    resolveEncryption f = .ok (resolveLinks f) := by
  obtain ⟨h, g, gw, u, s⟩ := f
  cases h <;> cases g <;> cases gw <;> cases u <;> rfl

/-- The resolved decisions do not depend on the `tlsProfile` field: no step
of the resolver inspects it. -/
theorem resolveLinks_profile_irrelevant (h g gw u : Bool) (s : String) :
    resolveLinks ⟨h, g, gw, u, s⟩ = resolveLinks ⟨h, g, gw, u, ""⟩ := rfl

/-! ### Claims C2, C3, C4 -/

/-- C2: for every flag combination with `gatewayEnabled = true` (whatever
the other flags, including `uiEnabled = true`), resolution succeeds, exactly
one decided link is `publicFacing`, and that link touches the gateway;
moreover in every resolved output at most one public-facing link touches any
given component. -/
theorem C2_single_public_ingress (f : EncryptionFlags) :
    (f.gatewayEnabled = true →
      resolveEncryption f = .ok (resolveLinks f) ∧
      ((resolveLinks f).filter (fun d => d.publicFacing)).length = 1 ∧
      ∀ d ∈ resolveLinks f, d.publicFacing = true →
        d.link.touches .gateway = true) ∧
    (∀ ds, resolveEncryption f = .ok ds →
      ∀ c : Component, publicFacingCount ds c ≤ 1) := by
  obtain ⟨h, g, gw, u, s⟩ := f
  have hs := resolveLinks_profile_irrelevant h g gw u s
  constructor
  · intro hgw
    rw [show (⟨h, g, gw, u, s⟩ : EncryptionFlags).gatewayEnabled = gw from rfl]
      at hgw
    subst hgw
    refine ⟨resolveEncryption_eq _, ?_, ?_⟩
    · rw [hs]
      cases h <;> cases g <;> cases u <;> decide
    · rw [hs]
      cases h <;> cases g <;> cases u <;> decide
  · intro ds hds c
    rw [resolveEncryption_eq] at hds
    injection hds with hds
    subst hds
    rw [hs]
    cases h <;> cases g <;> cases gw <;> cases u <;> cases c <;> decide

/-- C2 witness: with all of `httpEncryption`, `grpcEncryption`,
`gatewayEnabled`, `uiEnabled` set, resolution succeeds with exactly one
public-facing link, and no component is touched by two public-facing
links. -/
theorem C2_single_public_ingress_witness :
    (((resolveLinks ⟨true, true, true, true, ("Old")⟩).filter
        (fun d => d.publicFacing)).length = 1) ∧
    publicFacingCount (resolveLinks ⟨true, true, true, true, ("Old")⟩)
      Component.gateway ≤ 1 :=
  ⟨((C2_single_public_ingress ⟨true, true, true, true, ("Old")⟩).1 rfl).2.1,
   (C2_single_public_ingress ⟨true, true, true, true, ("Old")⟩).2 _ rfl
     Component.gateway⟩

/-- C3: for every flag combination with `gatewayEnabled = false` and
`uiEnabled = true`, resolution succeeds and the UI-facing HTTP link (the
plain HTTP API ingress into the UI) is decided `publicFacing` with
`encrypted = false`, regardless of `httpEncryption`. -/
theorem C3_ui_ingress_unencrypted (f : EncryptionFlags)
    (hgw : f.gatewayEnabled = false) (hui : f.uiEnabled = true) :
    resolveEncryption f = .ok (resolveLinks f) ∧
    LinkDecision.mk ⟨.outside, .comp .ui, .http⟩ false true ∈ resolveLinks f ∧
    ∀ d ∈ resolveLinks f, d.link = ⟨.outside, .comp .ui, .http⟩ →
      d.encrypted = false := by
  obtain ⟨h, g, gw, u, s⟩ := f
  have hs := resolveLinks_profile_irrelevant h g gw u s
  rw [show (⟨h, g, gw, u, s⟩ : EncryptionFlags).gatewayEnabled = gw from rfl]
    at hgw
  rw [show (⟨h, g, gw, u, s⟩ : EncryptionFlags).uiEnabled = u from rfl] at hui
  subst hgw
  subst hui
  refine ⟨resolveEncryption_eq _, ?_, ?_⟩
  · rw [hs]
    cases h <;> cases g <;> decide
  · rw [hs]
    cases h <;> cases g <;> decide

/-- C3 witness: with `httpEncryption = true`, `gatewayEnabled = false`,
`uiEnabled = true`, the UI ingress link is decided unencrypted and
public-facing. -/
theorem C3_ui_ingress_unencrypted_witness :
    LinkDecision.mk ⟨.outside, .comp .ui, .http⟩ false true ∈
      resolveLinks ⟨true, true, false, true, ("Modern")⟩ :=
  (C3_ui_ingress_unencrypted ⟨true, true, false, true, ("Modern")⟩ rfl
    rfl).2.1

/-- Whether a link runs strictly between internal components: both endpoints
are components and neither is the resolved public-facing component. -/
def strictlyInternal (f : EncryptionFlags) (l : Link) : Bool :=
  match l.src, l.dst with
  | .comp a, .comp b =>
      decide (a ≠ publicComponent f) && decide (b ≠ publicComponent f)
  | _, _ => false

/-- The `strictlyInternal` predicate does not depend on the `tlsProfile`
field. -/
theorem strictlyInternal_profile_irrelevant (h g gw u : Bool) (s : String) :
    strictlyInternal ⟨h, g, gw, u, s⟩ = strictlyInternal ⟨h, g, gw, u, ""⟩ :=
  rfl

/-- C4: for every flag combination, every decided link strictly between
internal components (never reaching the resolved public-facing component)
keeps its protocol-class encryption: `httpEncryption` for HTTP links,
`grpcEncryption` for GRPC links; in particular with all four flags set,
every internal link among distributor, ingester, querier, query-frontend and
the UI is decided `encrypted = true`. -/
theorem C4_internal_mesh (f : EncryptionFlags) :
    (∀ d ∈ resolveLinks f, strictlyInternal f d.link = true →
      d.encrypted = baseEncryption f d.link) ∧
    (f.httpEncryption = true → f.grpcEncryption = true →
      f.gatewayEnabled = true → f.uiEnabled = true →
      ∀ d ∈ resolveLinks f, strictlyInternal f d.link = true →
        d.encrypted = true) := by
  obtain ⟨h, g, gw, u, s⟩ := f
  have hs := resolveLinks_profile_irrelevant h g gw u s
  have hsi := strictlyInternal_profile_irrelevant h g gw u s
  have hsb : baseEncryption ⟨h, g, gw, u, s⟩ = baseEncryption ⟨h, g, gw, u, ""⟩ :=
    rfl
  constructor
  · rw [hs, hsi, hsb]
    cases h <;> cases g <;> cases gw <;> cases u <;> decide
  · intro hh hg hgw hu
    rw [show (⟨h, g, gw, u, s⟩ : EncryptionFlags).httpEncryption = h from rfl]
      at hh
    rw [show (⟨h, g, gw, u, s⟩ : EncryptionFlags).grpcEncryption = g from rfl]
      at hg
    rw [show (⟨h, g, gw, u, s⟩ : EncryptionFlags).gatewayEnabled = gw from rfl]
      at hgw
    rw [show (⟨h, g, gw, u, s⟩ : EncryptionFlags).uiEnabled = u from rfl]
      at hu
    subst hh; subst hg; subst hgw; subst hu
    rw [hs, hsi]
    decide

/-- C4 witness: with all four flags set, the strictly internal GRPC link
from the distributor to the ingester and the strictly internal HTTP link
from the UI to the query-frontend are both decided `encrypted = true`. -/
theorem C4_internal_mesh_witness :
    (LinkDecision.mk ⟨.comp .distributor, .comp .ingester, .grpc⟩ true
        false).encrypted = true ∧
    (LinkDecision.mk ⟨.comp .ui, .comp .queryFrontend, .http⟩ true
        false).encrypted = true :=
  ⟨(C4_internal_mesh ⟨true, true, true, true, ("Old")⟩).2 rfl rfl rfl rfl
      _ (by decide) (by decide),
   (C4_internal_mesh ⟨true, true, true, true, ("Old")⟩).2 rfl rfl rfl rfl
      _ (by decide) (by decide)⟩

/-! ### Feature Gate Aggregate (spec section 4.4) -/

/-- The CA duration pair carried by a `BuiltInCertManagement` value. -/
def caPairOf (b : BuiltInCertManagement) : DurationPair :=
  ⟨b.CACertValidity, b.CACertRefresh⟩

/-- The leaf-certificate duration pair carried by a `BuiltInCertManagement`
value. -/
def leafPairOf (b : BuiltInCertManagement) : DurationPair :=
  ⟨b.CertValidity, b.CertRefresh⟩

/-- The informational note emitted when the Prometheus Operator CRDs are
absent and the two metrics sub-flags are downgraded. -/
def prometheusOperatorNote : String :=
  "ServiceMonitors and PrometheusRules disabled: Prometheus Operator CRD absent"

/-- Modelled from the spec: `FeatureGatePolicy` of section 3 — the
aggregate, read-only result handed to the reconciler: cert-management
policy, per-link decisions, the effective TLS profile, the (possibly
downgraded) metrics gates, the platform gates, and informational notes. -/
structure FeatureGatePolicy where
  certPolicy : CertificateLifecyclePolicy
  links : List LinkDecision
  tlsProfile : String
  metrics : MetricsFeatureGates
  openShift : OpenShiftFeatureGates
  notes : List String
deriving DecidableEq

/-- Modelled from the spec: the Feature Gate Aggregate
`resolve(openShiftGates, certPolicy, encryptionFlags, topology)` of section
4.4, absent from the source slice. Calls the validator/builder and the
encryption resolver in order, short-circuits on the first failure;
`ClusterTLSPolicy = true` makes the platform API Server TLS profile win over
the user-supplied one (a policy-selection rule, no error); and
`PrometheusOperator = false` downgrades the two `MetricsFeatureGates`
sub-flags to `false` with an informational note, not an error. -/
def resolveFeatureGatePolicy (gates : FeatureGates) (flags : EncryptionFlags)
    (platformProfile : String) : Except PolicyError FeatureGatePolicy :=
  match buildCertificateLifecyclePolicy (caPairOf gates.BuiltInCertManagement)
      (leafPairOf gates.BuiltInCertManagement)
      gates.BuiltInCertManagement.Enabled with
  | .error e => .error e
  | .ok cert =>
    match resolveEncryption flags with
    | .error e => .error e
    | .ok links =>
      let profile := if gates.OpenShift.ClusterTLSPolicy then platformProfile
        else flags.tlsProfile
      if gates.PrometheusOperator then
        .ok ⟨cert, links, profile, gates.Observability.Metrics,
          gates.OpenShift, []⟩
      else
        .ok ⟨cert, links, profile, ⟨false, false⟩, gates.OpenShift,
          [prometheusOperatorNote]⟩

/-! ### Claim C7 -/

/-- C7: for every configuration with `PrometheusOperator = false`, any
successfully resolved `FeatureGatePolicy` has both `MetricsFeatureGates`
sub-flags false regardless of their configured values, carries the
informational note, and resolution succeeds exactly as it would with the
Prometheus Operator present — the downgrade is informational, never an
error. -/
theorem C7_prometheus_downgrade (gates : FeatureGates)
    (flags : EncryptionFlags) (platformProfile : String)
    (hprom : gates.PrometheusOperator = false) :
    (∀ pol, resolveFeatureGatePolicy gates flags platformProfile = .ok pol →
      pol.metrics.CreateServiceMonitors = false ∧
      pol.metrics.CreatePrometheusRules = false ∧
      pol.notes = [prometheusOperatorNote]) ∧
    (resolveFeatureGatePolicy gates flags platformProfile).isOk =
      (resolveFeatureGatePolicy { gates with PrometheusOperator := true }
        flags platformProfile).isOk := by
  obtain ⟨os, bic, he, ge, tp, po, ob⟩ := gates
  rw [show (FeatureGates.mk os bic he ge tp po ob).PrometheusOperator = po
    from rfl] at hprom
  subst hprom
  constructor
  · intro pol hpol
    unfold resolveFeatureGatePolicy at hpol
    rw [resolveEncryption_eq] at hpol
    cases hb : buildCertificateLifecyclePolicy (caPairOf bic) (leafPairOf bic)
        bic.Enabled with
    | error e =>
      rw [show (FeatureGates.mk os bic he ge tp false ob).BuiltInCertManagement
        = bic from rfl, hb] at hpol
      exact absurd hpol (by simp)
    | ok cert =>
      rw [show (FeatureGates.mk os bic he ge tp false ob).BuiltInCertManagement
        = bic from rfl, hb] at hpol
      have hpol2 : Except.ok (ε := PolicyError)
          (FeatureGatePolicy.mk cert (resolveLinks flags)
            (if os.ClusterTLSPolicy = true then platformProfile
              else flags.tlsProfile)
            ⟨false, false⟩ os [prometheusOperatorNote]) = Except.ok pol := hpol
      injection hpol2 with hpol2
      subst hpol2
      exact ⟨rfl, rfl, rfl⟩
  · unfold resolveFeatureGatePolicy
    rw [resolveEncryption_eq]
    cases hb : buildCertificateLifecyclePolicy (caPairOf bic) (leafPairOf bic)
        bic.Enabled with
    | error e => rfl
    | ok cert => rfl

/-- C7 witness: the spec scenario `PrometheusOperator = false,
CreateServiceMonitors = true` resolved on a valid configuration reports
`CreateServiceMonitors = false` with the informational note. -/
theorem C7_prometheus_downgrade_witness :
    (FeatureGatePolicy.mk ⟨⟨10, 2⟩, ⟨6, 1⟩, true⟩
        (resolveLinks ⟨true, true, true, false, ("Intermediate")⟩)
        ("Intermediate") ⟨false, false⟩ ⟨false, false, "", false⟩
        [prometheusOperatorNote]).metrics.CreateServiceMonitors = false ∧
    (FeatureGatePolicy.mk ⟨⟨10, 2⟩, ⟨6, 1⟩, true⟩
        (resolveLinks ⟨true, true, true, false, ("Intermediate")⟩)
        ("Intermediate") ⟨false, false⟩ ⟨false, false, "", false⟩
        [prometheusOperatorNote]).notes = [prometheusOperatorNote] := by
  have happ := (C7_prometheus_downgrade
    ⟨⟨false, false, "", false⟩, ⟨10, 2, 6, 1, true⟩, true, true,
      ("Intermediate"), false, ⟨⟨true, true⟩⟩⟩
    ⟨true, true, true, false, ("Intermediate")⟩ ("Old") rfl).1 _ rfl
  exact ⟨happ.1, happ.2.2⟩

/-! ### Claim C9: the TLS profile value space -/

/-- A well-typed `FeatureGates` configuration whose `TLSProfile` field holds
a string outside the three declared profile constants — the source declares
the field as a plain `string` with no restriction to `TLSProfileType`. -/
def legacyProfileGates : FeatureGates :=
  ⟨⟨false, false, "", false⟩, ⟨0, 0, 0, 0, false⟩, false, false,
    ("Legacy"), false, ⟨⟨false, false⟩⟩⟩

/-- C9 counterexample: the claim that every configuration consumed by the
resolver carries a `tlsProfile` among exactly `Old`, `Intermediate`,
`Modern` fails at the concrete configuration `legacyProfileGates`, whose
`TLSProfile` is the string "Legacy". -/
theorem C9_tls_profile_counterexample :
    ¬ legacyProfileGates.TLSProfile ∈ knownTLSProfiles := by decide

/-- C9 (amended): the named `TLSProfileType` constants are exactly the three
pairwise-distinct values `Old`, `Intermediate`, `Modern`; but the
`TLSProfile` field of `FeatureGates` is declared as an unrestricted string,
so a configuration value may carry a `tlsProfile` outside them. -/
theorem C9_tls_profile_values :
    knownTLSProfiles.Nodup ∧ knownTLSProfiles.length = 3 ∧
    ∃ g : FeatureGates, ¬ g.TLSProfile ∈ knownTLSProfiles := by
  refine ⟨by decide, rfl, legacyProfileGates, by decide⟩

/-! ### Claim C10: JSON decoding of `OpenShiftFeatureGates` -/

/-- A JSON scalar value, as needed for decoding the flat
`OpenShiftFeatureGates` object. -/
inductive JValue where
  | bool (b : Bool)
  | str (s : String)
deriving DecidableEq

/-- Embedded from the source: the Go field names of `OpenShiftFeatureGates`
paired with their `json:"..."` serialization tags. `ClusterTLSPolicy` is the
field declared with no tag. -/
def openShiftFeatureGatesJSONTags : List (String × Option String) :=
  [(("ServingCertsService"), some ("servingCertsService")),
   (("OpenShiftRoute"), some ("openshiftRoute")),
   (("BaseDomain"), some ("baseDomain")),
   (("ClusterTLSPolicy"), none)]

/-- The JSON object keys declared by the tags of the source struct. -/
def taggedJSONKeys : List String :=
  openShiftFeatureGatesJSONTags.filterMap Prod.snd

/-- Looks a key up in a (flat) JSON object, first binding wins. -/
def lookupKey (doc : List (String × JValue)) (k : String) : Option JValue :=
  match doc with
  | [] => none
  | (k2, v) :: rest => if k2 = k then some v else lookupKey rest k

/-- Reads a boolean member, defaulting to the Go zero value `false`. -/
def getBool (doc : List (String × JValue)) (k : String) : Bool :=
  match lookupKey doc k with
  | some (.bool b) => b
  | _ => false

/-- Reads a string member, defaulting to the Go zero value `""`. -/
def getStr (doc : List (String × JValue)) (k : String) : String :=
  match lookupKey doc k with
  | some (.str s) => s
  | _ => ""

/-- Decoding of a serialized `OpenShiftFeatureGates` object, following the
struct tags of the source and Go `encoding/json` semantics: a field with a
`json:"name"` tag is read from the key `name`; a field without a tag — here
`ClusterTLSPolicy`, the only one — is NOT skipped but read from its exported
Go field name (Go additionally accepts a case-insensitive key match, omitted
here; the omission only makes this decoder accept fewer documents). A key
absent from the document leaves the field at its Go zero value. -/
def decodeOpenShiftFeatureGates (doc : List (String × JValue)) :
    OpenShiftFeatureGates where
  ServingCertsService := getBool doc (("servingCertsService"))
  OpenShiftRoute := getBool doc (("openshiftRoute"))
  BaseDomain := getStr doc (("baseDomain"))
  ClusterTLSPolicy := getBool doc (("ClusterTLSPolicy"))

/-- C10 counterexample: the claim that every decoded configuration has
`ClusterTLSPolicy = false` fails at the concrete one-member document
mapping the key "ClusterTLSPolicy" to `true`: Go decodes an untagged field
from its exported field name, so the override is reachable from serialized
input. -/
theorem C10_cluster_tls_counterexample :
    (decodeOpenShiftFeatureGates
      [(("ClusterTLSPolicy"), JValue.bool true)]).ClusterTLSPolicy = true := by
  decide

/-- C10 (amended): `ClusterTLSPolicy` is the only field of
`OpenShiftFeatureGates` without a JSON serialization tag, and a serialized
document that uses only the declared tag keys always decodes to
`ClusterTLSPolicy = false`; however, since Go `encoding/json` decodes an
untagged field from its exported field name, a document carrying the key
"ClusterTLSPolicy" can still enable the platform-TLS-profile override. -/
theorem C10_cluster_tls_decoding :
    ((openShiftFeatureGatesJSONTags.filter (fun p => p.2 = none)).map
        Prod.fst = [("ClusterTLSPolicy")]) ∧
    (∀ doc : List (String × JValue),
      (∀ k ∈ doc.map Prod.fst, k ∈ taggedJSONKeys) →
      (decodeOpenShiftFeatureGates doc).ClusterTLSPolicy = false) ∧
    (∃ doc : List (String × JValue),
      (decodeOpenShiftFeatureGates doc).ClusterTLSPolicy = true) := by
  refine ⟨by decide, ?_, [(("ClusterTLSPolicy"), JValue.bool true)], by decide⟩
  intro doc hkeys
  show getBool doc (("ClusterTLSPolicy")) = false
  have hnone : lookupKey doc (("ClusterTLSPolicy")) = none := by
    induction doc with
    | nil => rfl
    | cons kv rest ih =>
      obtain ⟨k2, v⟩ := kv
      have hk2 : k2 ∈ taggedJSONKeys := hkeys k2 (by simp)
      have hne : ¬(k2 = ("ClusterTLSPolicy")) := by
        revert hk2
        show k2 ∈ [("servingCertsService"), ("openshiftRoute"),
          ("baseDomain")] → ¬(k2 = ("ClusterTLSPolicy"))
        intro hk2
        rcases List.mem_cons.1 hk2 with h1 | hk2
        · rw [h1]; decide
        rcases List.mem_cons.1 hk2 with h1 | hk2
        · rw [h1]; decide
        rcases List.mem_cons.1 hk2 with h1 | hk2
        · rw [h1]; decide
        · exact absurd hk2 (List.not_mem_nil k2)
      show (if k2 = ("ClusterTLSPolicy") then some v
        else lookupKey rest (("ClusterTLSPolicy"))) = none
      rw [if_neg hne]
      exact ih (fun k hk => hkeys k (by simp [hk]))
  show (match lookupKey doc (("ClusterTLSPolicy")) with
    | some (.bool b) => b
    | _ => false) = false
  rw [hnone]

/-- C10 witness: a document supplying only declared tag keys — here
the single member "servingCertsService" — decodes to
`ClusterTLSPolicy = false`. -/
theorem C10_cluster_tls_decoding_witness :
    (decodeOpenShiftFeatureGates
      [(("servingCertsService"), JValue.bool true)]).ClusterTLSPolicy =
      false :=
  C10_cluster_tls_decoding.2.1 [(("servingCertsService"), JValue.bool true)]
    (by decide)
